import Mathlib

/-
Shallow embedding of the per-session download orchestrator of bot.py
(telegram_video_bot).  Statuses are the string tags used throughout bot.py,
modelled as an inductive type; items and sessions mirror the dict layouts;
sizes are byte counts as natural numbers.

On the hard upload limit: bot.py sets
  TELEGRAM_MAX_FILE_SIZE_BYTES = 1.95 * 1000 * 1000 * 1000
which is a Python float whose value lies in the half-open interval
[1950000000, 1950000001).  Every size compared against it in bot.py is an
integer byte count, and for an integer n we have
  n > (that float)  iff  n > 1950000000,
so the limit is embedded as the natural number 1950000000.
-/

namespace Bot

/-- Status strings used by bot.py, as a closed enumeration. -/
inductive Status where
  | pending
  | downloading
  | sending
  | awaiting_quality_selection
  | completed
  | cancelled
  | failed
  | failed_sending
  | failed_internal
  | parse_failed
  | failed_last_attempt
deriving DecidableEq

/-- One submitted link and its processing state (the item dicts of bot.py).
The unique_id is a uuid4 string in bot.py; it is modelled as an opaque Nat.
Items created by handle_video_link have no format_string key yet, hence the
Option.  Message-id bookkeeping on items is omitted (not invariant-bearing). -/
structure Item where
  url : String
  title : String
  status : Status
  unique_id : Nat
  format_string : Option String := none
deriving DecidableEq

/-- The per-user session dict of bot.py. -/
structure Session where
  active_download : Option Item
  queue : List Item
  last_user_message_id : Option Nat
  selection_buttons_message_id : Option Nat
deriving DecidableEq

/-- bot.py line 32: hard upload limit (see the header note on the float). -/
def TELEGRAM_MAX_FILE_SIZE_BYTES : Nat := 1950000000

/-- bot.py line 34: 50 MB direct-video limit. -/
def TELEGRAM_VIDEO_FILE_SIZE_LIMIT_BYTES : Nat := 50 * 1024 * 1024

/-- bot.py line 491: timeout (seconds) passed to asyncio.wait_for around
the actual yt-dlp download call. -/
def DOWNLOAD_TIMEOUT_SECONDS : Nat := 300

/-- Outcomes of the probe-stage size decision in download_and_send_video
(bot.py lines 427-445), one per branch. -/
inductive SizeDecision where
  | proceedUnknown
  | rejectTooLarge
  | proceedAsVideo
  | needsSelection
  | proceedAnyway
deriving DecidableEq

/-- bot.py lines 427-445: the branch taken on the probed size estimate,
given the format selector of this attempt.  Branch order follows the
source: absent estimate first, then the hard limit, then the 50 MB video
limit, then the format test. -/
def resolveEstimatedSize (estimate : Option Nat) (format_string : String) :
    SizeDecision :=
  match estimate with
  | none => .proceedUnknown
  | some e =>
    if e > TELEGRAM_MAX_FILE_SIZE_BYTES then .rejectTooLarge
    else if e ≤ TELEGRAM_VIDEO_FILE_SIZE_LIMIT_BYTES then .proceedAsVideo
    else if format_string = "best" then .needsSelection
    else .proceedAnyway

/-- Claim C2: the probe-stage size resolver maps estimates to decisions by
the two thresholds and the default-format test: at most 50 MB proceeds as
video, above the hard limit rejects, the band in between needs selection
exactly when the selector is the default best, and a missing estimate
proceeds unknown; together with the five concrete instances of the spec. -/
theorem C2_size_resolver :
    (∀ e f, e ≤ TELEGRAM_VIDEO_FILE_SIZE_LIMIT_BYTES →
      resolveEstimatedSize (some e) f = .proceedAsVideo)
    ∧ (∀ e f, TELEGRAM_MAX_FILE_SIZE_BYTES < e →
      resolveEstimatedSize (some e) f = .rejectTooLarge)
    ∧ (∀ e, TELEGRAM_VIDEO_FILE_SIZE_LIMIT_BYTES < e →
        e < TELEGRAM_MAX_FILE_SIZE_BYTES →
      resolveEstimatedSize (some e) "best" = .needsSelection)
    ∧ (∀ e f, TELEGRAM_VIDEO_FILE_SIZE_LIMIT_BYTES < e →
        e < TELEGRAM_MAX_FILE_SIZE_BYTES → f ≠ "best" →
      resolveEstimatedSize (some e) f = .proceedAnyway)
    ∧ (∀ f, resolveEstimatedSize none f = .proceedUnknown)
    ∧ resolveEstimatedSize (some (40 * 1024 * 1024)) "best" = .proceedAsVideo
    ∧ resolveEstimatedSize (some 2500000000) "best" = .rejectTooLarge
    ∧ resolveEstimatedSize (some (100 * 1024 * 1024)) "best" = .needsSelection
    ∧ resolveEstimatedSize (some (100 * 1024 * 1024)) "worst" = .proceedAnyway
    ∧ resolveEstimatedSize (some (100 * 1024 * 1024)) "worst" ≠ .needsSelection := by
  refine ⟨?_, ?_, ?_, ?_, ?_, ?_, ?_, ?_, ?_, ?_⟩
  · intro e f he
    simp only [resolveEstimatedSize, TELEGRAM_MAX_FILE_SIZE_BYTES,
      TELEGRAM_VIDEO_FILE_SIZE_LIMIT_BYTES] at *
    rw [if_neg (by omega), if_pos (by omega)]
  · intro e f he
    simp only [resolveEstimatedSize, TELEGRAM_MAX_FILE_SIZE_BYTES] at *
    rw [if_pos (by omega)]
  · intro e h1 h2
    simp only [resolveEstimatedSize, TELEGRAM_MAX_FILE_SIZE_BYTES,
      TELEGRAM_VIDEO_FILE_SIZE_LIMIT_BYTES] at *
    rw [if_neg (by omega), if_neg (by omega), if_pos trivial]
  · intro e f h1 h2 hf
    simp only [resolveEstimatedSize, TELEGRAM_MAX_FILE_SIZE_BYTES,
      TELEGRAM_VIDEO_FILE_SIZE_LIMIT_BYTES] at *
    rw [if_neg (by omega), if_neg (by omega), if_neg hf]
  · intro f; rfl
  · decide
  · decide
  · decide
  · decide
  · decide

/-- Claim C2 witness: the general clauses of the resolver theorem applied at
concrete sizes. -/
theorem C2_witness :
    resolveEstimatedSize (some 1000) "best" = .proceedAsVideo
    ∧ resolveEstimatedSize (some 2000000000) "worst" = .rejectTooLarge
    ∧ resolveEstimatedSize (some 60000000) "worst" = .proceedAnyway :=
  ⟨C2_size_resolver.1 1000 "best" (by decide),
   C2_size_resolver.2.1 2000000000 "worst" (by decide),
   C2_size_resolver.2.2.2.1 60000000 "worst" (by decide) (by decide)
     (by decide)⟩

/-- bot.py lines 544-575: the branch taken on the measured size of the file
actually produced.  Unlike the probe-stage decision, this check does not
look at the format selector. -/
inductive PostDecision where
  | rejectTooLarge
  | needsNewSelection
  | withinVideoLimit
deriving DecidableEq

/-- bot.py lines 544, 555: classification of the actual downloaded size. -/
def actualSizeDecision (actualSize : Nat) : PostDecision :=
  if actualSize > TELEGRAM_MAX_FILE_SIZE_BYTES then .rejectTooLarge
  else if actualSize > TELEGRAM_VIDEO_FILE_SIZE_LIMIT_BYTES then .needsNewSelection
  else .withinVideoLimit

/-- Helper mirroring the repeated pattern
session[active_download][status] = st in bot.py (no-op with no active item,
where bot.py would raise). -/
def setActiveStatus (st : Status) (s : Session) : Session :=
  match s.active_download with
  | some a => { s with active_download := some { a with status := st } }
  | none => s

/-- bot.py lines 540-575 after a completed transfer: over the hard limit the
active item is marked failed and the run stops; over 50 MB it is marked
awaiting_quality_selection (quality buttons are shown again) and the run
stops; otherwise the run continues towards delivery.  The returned Bool is
whether the pipeline continues. -/
def postDownloadStep (actualSize : Nat) (s : Session) : Session × Bool :=
  match actualSizeDecision actualSize with
  | .rejectTooLarge => (setActiveStatus .failed s, false)
  | .needsNewSelection => (setActiveStatus .awaiting_quality_selection s, false)
  | .withinVideoLimit => (s, true)

/-- Result of the bounded yt-dlp download call, bot.py lines 488-532: the
asyncio.wait_for timeout, yt_dlp DownloadError and any other exception are
the three error arms. -/
inductive FetchOutcome where
  | ok
  | timeout
  | downloadError
  | unknownError
deriving DecidableEq

/-- bot.py lines 488-532: every error arm of the transfer sets the active
status to failed_last_attempt, shows a message and returns False (the Bool
is whether the pipeline continues). -/
def fetchStep (o : FetchOutcome) (s : Session) : Session × Bool :=
  match o with
  | .ok => (s, true)
  | _ => (setActiveStatus .failed_last_attempt s, false)

/-- bot.py lines 639-656 (with lines 686-698): on success the active item is
marked completed.  On a failed user send the code first sets failed_sending
(line 641), but both failure-reporting f-strings (lines 647 and 654)
interpolate the local name e, which is unbound on this path (the only
earlier bindings of e are inside except-blocks that did not run, and Python
unbinds except-variables after their block).  Evaluating the first f-string
raises UnboundLocalError inside the inner try, its handler re-raises the
same error from the second f-string, and the outer generic handler at line
686 then sets the status to failed_last_attempt before the finally block
runs. -/
def deliveryOutcomeStep (userSendSuccess : Bool) (s : Session) : Session :=
  if userSendSuccess then setActiveStatus .completed s
  else setActiveStatus .failed_last_attempt (setActiveStatus .failed_sending s)

/-- bot.py list comprehensions of the form
[q for q in queue if q[unique_id] != uid]. -/
def removeId (uid : Nat) (q : List Item) : List Item :=
  q.filter (fun it => it.unique_id != uid)

/-- Occurrences of a unique_id in a queue (specification measure, not from
the source). -/
def countId (uid : Nat) : List Item → Nat
  | [] => 0
  | it :: rest => (if it.unique_id = uid then 1 else 0) + countId uid rest

/-- bot.py lines 736-743 (and 203-210): update the status of the first queue
entry with the unique_id of the active item, or append the active item if no
entry matches. -/
def foldActiveIntoQueue (a : Item) : List Item → List Item
  | [] => [a]
  | it :: rest =>
    if it.unique_id = a.unique_id then { it with status := a.status } :: rest
    else it :: foldActiveIntoQueue a rest

/-- bot.py lines 718-754, the finally block of download_and_send_video for
the run that processed the item with the given unique_id: when the active
item is the one this run processed, terminal-permanent statuses are removed
from the queue, retryable statuses are folded back into the queue, and the
active slot is cleared unless the item is awaiting_quality_selection. -/
def finallyReconcile (uid : Nat) (s : Session) : Session :=
  match s.active_download with
  | none => s
  | some a =>
    if a.unique_id = uid then
      let q :=
        if a.status = .completed then removeId uid s.queue
        else if a.status = .cancelled then removeId uid s.queue
        else if a.status = .failed ∨ a.status = .failed_sending
            ∨ a.status = .failed_internal then removeId uid s.queue
        else if a.status = .parse_failed ∨ a.status = .failed_last_attempt then
          foldActiveIntoQueue a s.queue
        else s.queue
      if a.status ≠ .awaiting_quality_selection then
        { s with queue := q, active_download := none }
      else
        { s with queue := q }
    else s

/-- bot.py lines 200-216, the reconciliation run when the list view is
rendered: an active item in a retryable failed state is folded back into the
queue and the active slot is cleared; any other active item is kept. -/
def listReconcile (s : Session) : Session :=
  match s.active_download with
  | none => s
  | some a =>
    if a.status = .parse_failed ∨ a.status = .failed_last_attempt then
      { s with queue := foldActiveIntoQueue a s.queue, active_download := none }
    else s

/-- bot.py lines 221-224: statuses filtered out of the rendered list. -/
def hiddenFromList : Status → Bool
  | .completed | .cancelled | .failed | .failed_sending | .failed_internal => true
  | _ => false

/-- bot.py lines 263 and 917: statuses for which the list offers the start
button and the start handler accepts the click. -/
def startButtonOffered : Status → Bool
  | .pending | .failed_last_attempt => true
  | _ => false

/-- bot.py lines 379-386: the supersession guard at the top of
download_and_send_video.  When an active item exists whose unique_id differs
from the item this invocation carries, the run aborts before any probe,
transfer or delivery, and the superseded item is removed from the queue.
The Bool is whether the run aborted. -/
def supersessionGuard (item : Item) (s : Session) : Bool × Session :=
  match s.active_download with
  | none => (false, s)
  | some a =>
    if a.unique_id ≠ item.unique_id then
      (true, { s with queue := removeId item.unique_id s.queue })
    else (false, s)

/-- bot.py lines 946-950: set the status of the first matching queue entry. -/
def setStatusFirstMatch (uid : Nat) (st : Status) : List Item → List Item
  | [] => []
  | it :: rest =>
    if it.unique_id = uid then { it with status := st } :: rest
    else it :: setStatusFirstMatch uid st rest

/-- bot.py lines 895-952, the start_download button path reduced to its
session logic: refuse when an active download exists; find the clicked item
by unique_id; refuse unless its status is pending or failed_last_attempt;
otherwise promote it to the active slot with status downloading (the queue
entry and the active item are the same dict in bot.py, so both carry the
downloading status). -/
def startDownload (uid : Nat) (s : Session) : Option Session :=
  match s.active_download with
  | some _ => none
  | none =>
    match s.queue.find? (fun it => it.unique_id == uid) with
    | none => none
    | some it =>
      if it.status = .pending ∨ it.status = .failed_last_attempt then
        some { s with
          active_download := some { it with status := .downloading },
          queue := setStatusFirstMatch uid .downloading s.queue }
      else none

/-- bot.py line 812: placeholder title of a newly enqueued item. -/
def placeholderTitle : String := "[解析中]"

/-- bot.py lines 798-803: the url of the active item, if any, and the urls
of all queued items: the set a new submission is checked against. -/
def existingUrls (s : Session) : List String :=
  (match s.active_download with
   | some a => [a.url]
   | none => []) ++ s.queue.map (fun it => it.url)

/-- bot.py line 812: a freshly created queue item. -/
def newQueueItem (uid : Nat) (url : String) : Item :=
  { url := url, title := placeholderTitle, status := .pending,
    unique_id := uid, format_string := none }

/-- bot.py lines 809-817: process the urls found in one message in order.
A url already present among the active item and the queue (including urls
appended earlier in this same message) is skipped without mutation;
otherwise a fresh item is appended at the end of the queue.  bot.py draws a
uuid4 for each new item; this is modelled by a counter of opaque ids
(checking against the current session equals checking against the
existing_urls set of bot.py, because each appended item adds its url to the
queue before the next url is examined). -/
def enqueueUrls (nextId : Nat) (urls : List String) (s : Session) : Session :=
  match urls with
  | [] => s
  | url :: rest =>
    if url ∈ existingUrls s then enqueueUrls nextId rest s
    else enqueueUrls (nextId + 1) rest
      { s with queue := s.queue ++ [newQueueItem nextId url] }

/-- Stored per-user record (the JSON file), where every field may be absent:
outer none means the key is missing, matching the setdefault calls of
load_user_session. -/
structure RawRecord where
  active_download : Option (Option Item)
  queue : Option (List Item)
  last_user_message_id : Option (Option Nat)
  selection_buttons_message_id : Option (Option Nat)
deriving DecidableEq

/-- bot.py lines 60-79: load a session record.  A missing file, a JSON
decoding error or any other error yields none (the callers then
re-initialize an empty session); a parsed record has each missing field
defaulted by setdefault. -/
def load_user_session : Option RawRecord → Option Session
  | none => none
  | some r =>
    some { active_download := r.active_download.getD none
         , queue := r.queue.getD []
         , last_user_message_id := r.last_user_message_id.getD none
         , selection_buttons_message_id :=
             r.selection_buttons_message_id.getD none }

/-- bot.py lines 843-851: apply one asynchronous title-probe result.  The
recorded queue index must still be in range and the entry there must still
carry the probed url; only then are the title (always) and the status
(parse_failed, on probe error) written.  Otherwise the result is dropped. -/
def applyProbeResult (queueIdx : Nat) (url title : String) (probeFailed : Bool)
    (q : List Item) : List Item :=
  match q[queueIdx]? with
  | none => q
  | some it =>
    if it.url = url then
      q.set queueIdx
        { it with title := title
                , status := if probeFailed then .parse_failed else it.status }
    else q

/-- bot.py lines 702-710, the finally-block file cleanup: whether the local
media file is still present afterwards, as a function of the
DELETE_DOWNLOADED_FILES_AFTER_UPLOAD configuration flag. -/
def fileAfterCleanup (shouldDeleteFile filePresent : Bool) : Bool :=
  if filePresent && shouldDeleteFile then false else filePresent

/-- Number of items in the active slot (the slot is a single optional
value). -/
def activeCount (s : Session) : Nat :=
  match s.active_download with
  | some _ => 1
  | none => 0

/-- Removing a unique_id leaves no occurrence of it. -/
theorem countId_removeId (uid : Nat) (q : List Item) :
    countId uid (removeId uid q) = 0 := by
  induction q with
  | nil => rfl
  | cons h t ih =>
    rw [removeId, List.filter_cons]
    by_cases hh : h.unique_id = uid
    · have hb : (h.unique_id != uid) = false := by simp [hh]
      rw [hb]
      simp only [Bool.false_eq_true, if_false]
      exact ih
    · have hb : (h.unique_id != uid) = true := by simpa [bne_iff_ne] using hh
      rw [hb]
      simp only [if_pos rfl, countId, if_neg hh]
      rw [Nat.zero_add]
      exact ih

/-- Folding the active item back into the queue yields exactly one
occurrence of its unique_id when there was at most one before. -/
theorem countId_fold (a : Item) (q : List Item) :
    countId a.unique_id (foldActiveIntoQueue a q)
      = max 1 (countId a.unique_id q) := by
  induction q with
  | nil => simp [foldActiveIntoQueue, countId]
  | cons h t ih =>
    by_cases hh : h.unique_id = a.unique_id
    · simp [foldActiveIntoQueue, if_pos hh, countId, hh]
    · simp only [foldActiveIntoQueue, if_neg hh, countId, if_neg hh, ih]
      omega

/-- After folding the active item into the queue, searching for its
unique_id finds an entry carrying the active status. -/
theorem findIdInFold (a : Item) (q : List Item) :
    ∃ it, (foldActiveIntoQueue a q).find? (fun x => x.unique_id == a.unique_id)
        = some it
      ∧ it.status = a.status ∧ it.unique_id = a.unique_id := by
  induction q with
  | nil =>
    exact ⟨a, by simp [foldActiveIntoQueue, List.find?], rfl, rfl⟩
  | cons h t ih =>
    by_cases hh : h.unique_id = a.unique_id
    · refine ⟨{ h with status := a.status }, ?_, rfl, hh⟩
      simp [foldActiveIntoQueue, hh, List.find?]
    · obtain ⟨it, hfind, hst, hid⟩ := ih
      refine ⟨it, ?_, hst, hid⟩
      simp [foldActiveIntoQueue, hh, List.find?, hfind]

/-- After removing a unique_id, searching for it fails. -/
theorem removeId_find_none (uid : Nat) (q : List Item) :
    (removeId uid q).find? (fun x => x.unique_id == uid) = none := by
  induction q with
  | nil => rfl
  | cons h t ih =>
    rw [removeId, List.filter_cons]
    by_cases hh : h.unique_id = uid
    · have hb : (h.unique_id != uid) = false := by simp [hh]
      rw [hb]
      simp only [Bool.false_eq_true, if_false]
      exact ih
    · have hb : (h.unique_id != uid) = true := by simpa [bne_iff_ne] using hh
      rw [hb]
      simp only [if_pos rfl, List.find?]
      have hb2 : (h.unique_id == uid) = false := by simpa using hh
      rw [hb2]
      exact ih

/-- Claim C1: the active slot holds at most one item; after the
finally-block reconciliation of the run that processed the active item the
slot is cleared unless the item is awaiting_quality_selection; and an item
left in a retryable status (parse_failed, failed_last_attempt) appears
exactly once in the queue afterwards, both after the finally-block
reconciliation and after the list-view reconciliation, so a non-transient
active item is always also a queue entry. -/
theorem C1_reconcile_active_invariant (s : Session) (a : Item)
    (ha : s.active_download = some a)
    (hc : countId a.unique_id s.queue ≤ 1) :
    activeCount s ≤ 1
    ∧ (∀ b, (finallyReconcile a.unique_id s).active_download = some b →
        b.status = .awaiting_quality_selection)
    ∧ ((a.status = .parse_failed ∨ a.status = .failed_last_attempt) →
        countId a.unique_id (finallyReconcile a.unique_id s).queue = 1
        ∧ (finallyReconcile a.unique_id s).active_download = none
        ∧ countId a.unique_id (listReconcile s).queue = 1
        ∧ (listReconcile s).active_download = none) := by
  refine ⟨by simp [activeCount, ha], ?_, ?_⟩
  · intro b hb
    by_cases hA : a.status = Status.awaiting_quality_selection
    · simp [finallyReconcile, ha, hA] at hb
      rw [← hb, hA]
    · simp [finallyReconcile, ha, hA] at hb
  · intro hr
    have hfq : (finallyReconcile a.unique_id s).queue
        = foldActiveIntoQueue a s.queue := by
      rcases hr with h | h <;> simp [finallyReconcile, ha, h]
    have hfa : (finallyReconcile a.unique_id s).active_download = none := by
      rcases hr with h | h <;> simp [finallyReconcile, ha, h]
    have hlq : (listReconcile s).queue = foldActiveIntoQueue a s.queue := by
      rcases hr with h | h <;> simp [listReconcile, ha, h]
    have hla : (listReconcile s).active_download = none := by
      rcases hr with h | h <;> simp [listReconcile, ha, h]
    refine ⟨?_, hfa, ?_, hla⟩
    · rw [hfq, countId_fold]; omega
    · rw [hlq, countId_fold]; omega

def w1item : Item :=
  { url := "http://example.com/a", title := "t1",
    status := .failed_last_attempt, unique_id := 1,
    format_string := some "best" }

def w1sess : Session :=
  { active_download := some w1item, queue := [w1item],
    last_user_message_id := none, selection_buttons_message_id := none }

/-- Claim C1 witness: the invariant theorem applied to a concrete session
whose active item failed its last attempt. -/
theorem C1_witness :
    w1sess.active_download = some w1item
    ∧ countId w1item.unique_id w1sess.queue ≤ 1
    ∧ countId w1item.unique_id
        (finallyReconcile w1item.unique_id w1sess).queue = 1
    ∧ (finallyReconcile w1item.unique_id w1sess).active_download = none :=
  ⟨rfl, by decide,
    ((C1_reconcile_active_invariant w1sess w1item rfl (by decide)).2.2
      (Or.inr rfl)).1,
    ((C1_reconcile_active_invariant w1sess w1item rfl (by decide)).2.2
      (Or.inr rfl)).2.1⟩

/-- Claim C5: the transfer is bounded by a fixed 300 second timeout; on
timeout or any fetcher error the active item becomes failed_last_attempt
and the pipeline stops; the finally-block reconciliation leaves the item in
the queue exactly once with the active slot cleared; and a subsequent
user-initiated start click on that item succeeds, re-entering the pipeline
(which begins with the supersession guard). -/
theorem C5_transfer_timeout (s : Session) (a : Item) (o : FetchOutcome)
    (ha : s.active_download = some a) (ho : o ≠ .ok)
    (hc : countId a.unique_id s.queue ≤ 1) :
    DOWNLOAD_TIMEOUT_SECONDS = 300
    ∧ (fetchStep o s).2 = false
    ∧ (fetchStep o s).1.active_download
        = some { a with status := .failed_last_attempt }
    ∧ countId a.unique_id
        (finallyReconcile a.unique_id (fetchStep o s).1).queue = 1
    ∧ (finallyReconcile a.unique_id (fetchStep o s).1).active_download = none
    ∧ (startDownload a.unique_id
        (finallyReconcile a.unique_id (fetchStep o s).1)).isSome = true := by
  have hstep : fetchStep o s = (setActiveStatus .failed_last_attempt s, false) := by
    cases o with
    | ok => exact absurd rfl ho
    | timeout => rfl
    | downloadError => rfl
    | unknownError => rfl
  have hS1 : (fetchStep o s).1
      = { s with
          active_download := some ({ a with status := Status.failed_last_attempt }) } := by
    rw [hstep]; simp [setActiveStatus, ha]
  have hrec : finallyReconcile a.unique_id (fetchStep o s).1
      = { s with
          queue := foldActiveIntoQueue ({ a with status := Status.failed_last_attempt }) s.queue,
          active_download := none } := by
    rw [hS1]; simp [finallyReconcile]
  have hcf := countId_fold ({ a with status := Status.failed_last_attempt }) s.queue
  simp only at hcf
  obtain ⟨it, hfind, hst, hid⟩ :=
    findIdInFold ({ a with status := Status.failed_last_attempt }) s.queue
  simp only at hfind hst hid
  refine ⟨rfl, by rw [hstep], by rw [hS1], ?_, by rw [hrec], ?_⟩
  · rw [hrec]
    simp only
    rw [hcf]
    omega
  · rw [hrec]
    simp [startDownload, hfind, hst]

def w5item : Item :=
  { url := "http://example.com/b", title := "t5",
    status := .downloading, unique_id := 5, format_string := some "best" }

def w5sess : Session :=
  { active_download := some w5item, queue := [w5item],
    last_user_message_id := none, selection_buttons_message_id := none }

/-- Claim C5 witness: the timeout theorem applied to a concrete session
whose transfer timed out. -/
theorem C5_witness :
    w5sess.active_download = some w5item
    ∧ FetchOutcome.timeout ≠ FetchOutcome.ok
    ∧ countId w5item.unique_id w5sess.queue ≤ 1
    ∧ DOWNLOAD_TIMEOUT_SECONDS = 300
    ∧ (fetchStep .timeout w5sess).2 = false
    ∧ (startDownload w5item.unique_id
        (finallyReconcile w5item.unique_id
          (fetchStep .timeout w5sess).1)).isSome = true :=
  ⟨rfl, by decide, by decide,
    (C5_transfer_timeout w5sess w5item .timeout rfl (by decide) (by decide)).1,
    (C5_transfer_timeout w5sess w5item .timeout rfl (by decide) (by decide)).2.1,
    (C5_transfer_timeout w5sess w5item .timeout rfl (by decide)
      (by decide)).2.2.2.2.2⟩

def c3item : Item :=
  { url := "http://example.com/c", title := "t3",
    status := .sending, unique_id := 3, format_string := some "best" }

def c3sess : Session :=
  { active_download := some c3item, queue := [c3item],
    last_user_message_id := none, selection_buttons_message_id := none }

def c3fsItem : Item :=
  { url := "http://example.com/c", title := "t3",
    status := .failed_sending, unique_id := 3, format_string := some "best" }

def c3fsSess : Session :=
  { active_download := some c3fsItem, queue := [c3fsItem],
    last_user_message_id := none, selection_buttons_message_id := none }

/-- Claim C3 counterexample: on a failed delivery the run does not end with
status failed_sending (the failure-reporting path raises on an unbound
variable and the generic handler sets failed_last_attempt); and an active
item that did end as failed_sending would be removed from the queue by
reconciliation rather than remain in it, is hidden from the list view, and
gets no retry button. -/
theorem C3_counterexample :
    (deliveryOutcomeStep false c3sess).active_download.map Item.status
      = some .failed_last_attempt
    ∧ (deliveryOutcomeStep false c3sess).active_download.map Item.status
      ≠ some .failed_sending
    ∧ c3fsSess.queue = [c3fsItem]
    ∧ countId 3 (finallyReconcile 3 c3fsSess).queue = 0
    ∧ hiddenFromList .failed_sending = true
    ∧ startButtonOffered .failed_sending = false := by
  decide

/-- Claim C3 amended: on delivery failure the status is set to
failed_sending but the run ends with the item in failed_last_attempt (the
failure-reporting f-strings reference an unbound variable, so the generic
handler finishes the run); a failure message is surfaced by that handler;
reconciliation then leaves the item in the queue exactly once with the
active slot cleared, visible in the list and retryable via the start
button.  Had the status remained failed_sending, the item would instead
have been pruned as permanent. -/
theorem C3_delivery_failure_amended (s : Session) (a : Item)
    (ha : s.active_download = some a)
    (hc : countId a.unique_id s.queue ≤ 1) :
    (deliveryOutcomeStep false s).active_download
      = some ({ a with status := .failed_last_attempt })
    ∧ countId a.unique_id
        (finallyReconcile a.unique_id (deliveryOutcomeStep false s)).queue = 1
    ∧ (finallyReconcile a.unique_id
        (deliveryOutcomeStep false s)).active_download = none
    ∧ hiddenFromList .failed_last_attempt = false
    ∧ startButtonOffered .failed_last_attempt = true := by
  have hS1 : deliveryOutcomeStep false s
      = { s with
          active_download := some ({ a with status := Status.failed_last_attempt }) } := by
    simp [deliveryOutcomeStep, setActiveStatus, ha]
  have hrec : finallyReconcile a.unique_id (deliveryOutcomeStep false s)
      = { s with
          queue := foldActiveIntoQueue ({ a with status := Status.failed_last_attempt }) s.queue,
          active_download := none } := by
    rw [hS1]; simp [finallyReconcile]
  have hcf := countId_fold ({ a with status := Status.failed_last_attempt }) s.queue
  simp only at hcf
  refine ⟨by rw [hS1], ?_, by rw [hrec], rfl, rfl⟩
  rw [hrec]
  simp only
  rw [hcf]
  omega

def w3item : Item :=
  { url := "http://example.com/w3", title := "w3",
    status := .sending, unique_id := 31, format_string := some "best" }

def w3sess : Session :=
  { active_download := some w3item, queue := [w3item],
    last_user_message_id := none, selection_buttons_message_id := none }

/-- Claim C3 witness: the amended delivery-failure theorem applied to a
concrete session. -/
theorem C3_witness :
    w3sess.active_download = some w3item
    ∧ countId w3item.unique_id w3sess.queue ≤ 1
    ∧ countId w3item.unique_id
        (finallyReconcile w3item.unique_id
          (deliveryOutcomeStep false w3sess)).queue = 1 :=
  ⟨rfl, by decide,
    (C3_delivery_failure_amended w3sess w3item rfl (by decide)).2.1⟩

def c4item : Item :=
  { url := "http://example.com/d", title := "t4",
    status := .downloading, unique_id := 4, format_string := some "worst" }

def c4sess : Session :=
  { active_download := some c4item, queue := [c4item],
    last_user_message_id := none, selection_buttons_message_id := none }

/-- Claim C4 counterexample: the attempt uses the non-default selector
worst and the measured size 100 MB lies strictly between the two limits,
yet the post-transfer check halts the pipeline and sets
awaiting_quality_selection (the quality prompt is shown again) instead of
proceeding to delivery. -/
theorem C4_counterexample :
    c4item.format_string = some "worst"
    ∧ TELEGRAM_VIDEO_FILE_SIZE_LIMIT_BYTES < 100 * 1024 * 1024
    ∧ 100 * 1024 * 1024 < TELEGRAM_MAX_FILE_SIZE_BYTES
    ∧ (postDownloadStep (100 * 1024 * 1024) c4sess).2 = false
    ∧ (postDownloadStep (100 * 1024 * 1024) c4sess).1.active_download.map
        Item.status = some .awaiting_quality_selection := by
  decide

/-- Claim C4 amended: the post-transfer size check does not consult the
format selector at all: for any session and any measured size strictly
between the 50 MB limit and the hard limit, the decision is a new quality
selection, the pipeline stops before delivery, and the active item is set
to awaiting_quality_selection, even when a non-default format was already
chosen. -/
theorem C4_post_download_amended (s : Session) (a : Item) (n : Nat)
    (ha : s.active_download = some a)
    (h1 : TELEGRAM_VIDEO_FILE_SIZE_LIMIT_BYTES < n)
    (h2 : n ≤ TELEGRAM_MAX_FILE_SIZE_BYTES) :
    actualSizeDecision n = .needsNewSelection
    ∧ (postDownloadStep n s).2 = false
    ∧ (postDownloadStep n s).1.active_download
        = some ({ a with status := .awaiting_quality_selection }) := by
  have hdec : actualSizeDecision n = .needsNewSelection := by
    simp only [actualSizeDecision, TELEGRAM_MAX_FILE_SIZE_BYTES,
      TELEGRAM_VIDEO_FILE_SIZE_LIMIT_BYTES] at *
    rw [if_neg (by omega), if_pos (by omega)]
  refine ⟨hdec, ?_, ?_⟩
  · simp [postDownloadStep, hdec]
  · simp [postDownloadStep, hdec, setActiveStatus, ha]

/-- Claim C4 witness: the amended post-transfer theorem applied to the
concrete 100 MB, non-default-format session. -/
theorem C4_witness :
    c4sess.active_download = some c4item
    ∧ TELEGRAM_VIDEO_FILE_SIZE_LIMIT_BYTES < 100 * 1024 * 1024
    ∧ 100 * 1024 * 1024 ≤ TELEGRAM_MAX_FILE_SIZE_BYTES
    ∧ actualSizeDecision (100 * 1024 * 1024) = .needsNewSelection :=
  ⟨rfl, by decide, by decide,
    (C4_post_download_amended c4sess c4item (100 * 1024 * 1024) rfl
      (by decide) (by decide)).1⟩

def c6item : Item :=
  { url := "http://example.com/e", title := "t6",
    status := .downloading, unique_id := 6, format_string := some "best" }

def c6sess : Session :=
  { active_download := some c6item, queue := [c6item],
    last_user_message_id := none, selection_buttons_message_id := none }

/-- Claim C6 counterexample: a 2.5 GB measured size marks the item failed
and reconciliation removes it from the queue, but with the retention
configuration set to keep (DELETE_DOWNLOADED_FILES_AFTER_UPLOAD false) the
finally-block cleanup leaves the local file in place, so the file is not
discarded unconditionally as the claim states. -/
theorem C6_counterexample :
    TELEGRAM_MAX_FILE_SIZE_BYTES < 2500000000
    ∧ actualSizeDecision 2500000000 = .rejectTooLarge
    ∧ (postDownloadStep 2500000000 c6sess).1.active_download.map Item.status
      = some .failed
    ∧ countId 6 (finallyReconcile 6
        (postDownloadStep 2500000000 c6sess).1).queue = 0
    ∧ fileAfterCleanup false true = true := by
  decide

/-- Claim C6 amended: when the measured size exceeds the hard limit the
item is marked with the permanent status failed, the pipeline stops, no new
quality selection is offered, and reconciliation removes the item from the
queue and clears the active slot; the local file is deleted by the cleanup
step exactly when the retention configuration says delete (the default),
and is kept otherwise. -/
theorem C6_oversize_amended (s : Session) (a : Item) (n : Nat)
    (ha : s.active_download = some a)
    (h : TELEGRAM_MAX_FILE_SIZE_BYTES < n) :
    actualSizeDecision n = .rejectTooLarge
    ∧ (postDownloadStep n s).2 = false
    ∧ (postDownloadStep n s).1.active_download
        = some ({ a with status := .failed })
    ∧ countId a.unique_id
        (finallyReconcile a.unique_id (postDownloadStep n s).1).queue = 0
    ∧ (finallyReconcile a.unique_id (postDownloadStep n s).1).active_download
        = none
    ∧ fileAfterCleanup true true = false
    ∧ fileAfterCleanup false true = true := by
  have hdec : actualSizeDecision n = .rejectTooLarge := by
    simp only [actualSizeDecision, TELEGRAM_MAX_FILE_SIZE_BYTES] at *
    rw [if_pos (by omega)]
  have hS1 : (postDownloadStep n s).1
      = { s with active_download := some ({ a with status := Status.failed }) } := by
    simp [postDownloadStep, hdec, setActiveStatus, ha]
  have hrec : finallyReconcile a.unique_id (postDownloadStep n s).1
      = { s with
          queue := removeId a.unique_id s.queue,
          active_download := none } := by
    rw [hS1]; simp [finallyReconcile]
  refine ⟨hdec, by simp [postDownloadStep, hdec], by rw [hS1], ?_,
    by rw [hrec], rfl, rfl⟩
  rw [hrec]
  simp only
  exact countId_removeId a.unique_id s.queue

/-- Claim C6 witness: the amended oversize theorem applied to the concrete
2.5 GB run. -/
theorem C6_witness :
    c6sess.active_download = some c6item
    ∧ TELEGRAM_MAX_FILE_SIZE_BYTES < 2500000000
    ∧ countId c6item.unique_id
        (finallyReconcile c6item.unique_id
          (postDownloadStep 2500000000 c6sess).1).queue = 0 :=
  ⟨rfl, by decide,
    (C6_oversize_amended c6sess c6item 2500000000 rfl (by decide)).2.2.2.1⟩

def c7active : Item :=
  { url := "http://example.com/f1", title := "tA",
    status := .downloading, unique_id := 70, format_string := some "best" }

def c7stale : Item :=
  { url := "http://example.com/f2", title := "tB",
    status := .pending, unique_id := 71, format_string := none }

def c7sess : Session :=
  { active_download := some c7active, queue := [c7stale],
    last_user_message_id := none, selection_buttons_message_id := none }

/-- Claim C7 counterexample: a run invoked with an item whose id differs
from the active id aborts, but it does not leave the queue unchanged: the
superseded item is removed from the queue by the guard. -/
theorem C7_counterexample :
    (supersessionGuard c7stale c7sess).1 = true
    ∧ c7sess.queue = [c7stale]
    ∧ (supersessionGuard c7stale c7sess).2.queue = [] := by
  decide

/-- Claim C7 amended: when the invoked items id differs from the active
id, the run fails fast (aborting before probe, transfer or delivery) and
the active slot is untouched, but the queue is changed: every entry with
the superseded items id is removed, while all other entries are kept and
nothing is added. -/
theorem C7_supersession_guard_amended (s : Session) (a item : Item)
    (ha : s.active_download = some a)
    (hne : a.unique_id ≠ item.unique_id) :
    (supersessionGuard item s).1 = true
    ∧ (supersessionGuard item s).2.active_download = s.active_download
    ∧ countId item.unique_id (supersessionGuard item s).2.queue = 0
    ∧ (∀ q ∈ s.queue, q.unique_id ≠ item.unique_id →
        q ∈ (supersessionGuard item s).2.queue)
    ∧ (∀ q ∈ (supersessionGuard item s).2.queue, q ∈ s.queue) := by
  have hg : supersessionGuard item s
      = (true, { s with queue := removeId item.unique_id s.queue }) := by
    simp [supersessionGuard, ha, hne]
  rw [hg]
  refine ⟨rfl, rfl, countId_removeId item.unique_id s.queue, ?_, ?_⟩
  · intro q hq hqe
    simp only [removeId, List.mem_filter]
    exact ⟨hq, by simpa [bne_iff_ne] using hqe⟩
  · intro q hq
    simp only [removeId, List.mem_filter] at hq
    exact hq.1

/-- Claim C7 witness: the amended guard theorem applied to the concrete
superseded session. -/
theorem C7_witness :
    c7sess.active_download = some c7active
    ∧ c7active.unique_id ≠ c7stale.unique_id
    ∧ (supersessionGuard c7stale c7sess).1 = true
    ∧ (supersessionGuard c7stale c7sess).2.active_download
        = c7sess.active_download :=
  ⟨rfl, by decide,
    (C7_supersession_guard_amended c7sess c7active c7stale rfl (by decide)).1,
    (C7_supersession_guard_amended c7sess c7active c7stale rfl (by decide)).2.1⟩

/-- Claim C8: enqueue is duplicate-free.  A url equal to the active items
url or any queued items url adds nothing and mutates nothing; this holds
for the same url appearing twice in one message; otherwise a fresh item
with status pending, the placeholder title and a new id not used by any
existing item is appended at the end; and after a terminal (completed)
active item is pruned by reconciliation, re-submitting its url appends a
fresh item again. -/
theorem C8_enqueue_dedup (n : Nat) (s : Session) (u : String) :
    (u ∈ existingUrls s → enqueueUrls n [u] s = s)
    ∧ (u ∉ existingUrls s →
        (enqueueUrls n [u, u] s).queue = s.queue ++ [newQueueItem n u]
        ∧ (newQueueItem n u).status = .pending
        ∧ (newQueueItem n u).title = placeholderTitle
        ∧ ((∀ it ∈ s.queue, it.unique_id < n) →
            ∀ it ∈ s.queue, it.unique_id ≠ (newQueueItem n u).unique_id))
    ∧ (∀ a, s.active_download = some a → a.status = .completed → a.url = u →
        (∀ q ∈ s.queue, q.url = u → q.unique_id = a.unique_id) →
        u ∉ existingUrls (finallyReconcile a.unique_id s)
        ∧ (enqueueUrls n [u] (finallyReconcile a.unique_id s)).queue
            = (finallyReconcile a.unique_id s).queue ++ [newQueueItem n u]) := by
  refine ⟨?_, ?_, ?_⟩
  · intro hm
    simp [enqueueUrls, hm]
  · intro hm
    have happ : u ∈ existingUrls
        { s with queue := s.queue ++ [newQueueItem n u] } := by
      simp [existingUrls, newQueueItem]
    refine ⟨?_, rfl, rfl, ?_⟩
    · simp [enqueueUrls, hm, happ]
    · intro hub it hit
      have := hub it hit
      simp only [newQueueItem]
      omega
  · intro a ha hst hurl hq
    have hrec : finallyReconcile a.unique_id s
        = { s with
            queue := removeId a.unique_id s.queue,
            active_download := none } := by
      simp [finallyReconcile, ha, hst]
    have hnot : u ∉ existingUrls (finallyReconcile a.unique_id s) := by
      rw [hrec]
      intro hmem
      simp only [existingUrls, removeId, List.mem_append, List.mem_map,
        List.mem_filter] at hmem
      rcases hmem with hmem | hmem
      · simp at hmem
      · obtain ⟨it, ⟨hitq, hitne⟩, hitu⟩ := hmem
        have hne : it.unique_id ≠ a.unique_id := by
          simpa [bne_iff_ne] using hitne
        exact hne (hq it hitq hitu)
    refine ⟨hnot, ?_⟩
    have happ2 : u ∈ existingUrls
        { finallyReconcile a.unique_id s with
          queue := (finallyReconcile a.unique_id s).queue ++ [newQueueItem n u] } := by
      simp [existingUrls, newQueueItem]
    simp [enqueueUrls, hnot, happ2]

def w8sess : Session :=
  { active_download := none, queue := [],
    last_user_message_id := none, selection_buttons_message_id := none }

/-- Claim C8 witness: the enqueue theorem applied to an empty session and a
message containing the same url twice. -/
theorem C8_witness :
    "http://example.com/x" ∉ existingUrls w8sess
    ∧ (enqueueUrls 0 ["http://example.com/x", "http://example.com/x"] w8sess).queue
        = w8sess.queue ++ [newQueueItem 0 "http://example.com/x"] :=
  ⟨by decide,
    ((C8_enqueue_dedup 0 w8sess "http://example.com/x").2.1 (by decide)).1⟩

/-- Claim C9: loading a persisted record defaults every missing field
(active slot to none, queue to empty, both presentation message references
to none) while preserving every present field, always yielding a
well-formed Session; an unparseable or missing record loads as none
instead of raising. -/
theorem C9_load_defaults (r : RawRecord) :
    load_user_session none = none
    ∧ (load_user_session (some r)).isSome = true
    ∧ (∀ s, load_user_session (some r) = some s →
        (∀ v, r.active_download = some v → s.active_download = v)
        ∧ (r.active_download = none → s.active_download = none)
        ∧ (∀ v, r.queue = some v → s.queue = v)
        ∧ (r.queue = none → s.queue = [])
        ∧ (∀ v, r.last_user_message_id = some v → s.last_user_message_id = v)
        ∧ (r.last_user_message_id = none → s.last_user_message_id = none)
        ∧ (∀ v, r.selection_buttons_message_id = some v →
            s.selection_buttons_message_id = v)
        ∧ (r.selection_buttons_message_id = none →
            s.selection_buttons_message_id = none)) := by
  refine ⟨rfl, rfl, ?_⟩
  intro s hs
  simp only [load_user_session, Option.some.injEq] at hs
  subst hs
  exact ⟨fun v hv => by simp [hv], fun hv => by simp [hv],
    fun v hv => by simp [hv], fun hv => by simp [hv],
    fun v hv => by simp [hv], fun hv => by simp [hv],
    fun v hv => by simp [hv], fun hv => by simp [hv]⟩

def w9item : Item :=
  { url := "http://example.com/y", title := "t9",
    status := .pending, unique_id := 9, format_string := none }

def w9rec : RawRecord :=
  { active_download := some (some w9item), queue := none,
    last_user_message_id := some (some 55),
    selection_buttons_message_id := none }

/-- Claim C9 witness: the load theorem applied to a concrete partial
record with two fields present and two fields missing. -/
theorem C9_witness :
    load_user_session none = none
    ∧ ∀ s, load_user_session (some w9rec) = some s →
        s.active_download = some w9item ∧ s.queue = [] :=
  ⟨(C9_load_defaults w9rec).1,
    fun s hs =>
      ⟨((C9_load_defaults w9rec).2.2 s hs).1 (some w9item) rfl,
        ((C9_load_defaults w9rec).2.2 s hs).2.2.2.1 rfl⟩⟩

/-- Claim C10: a stale asynchronous title-probe result is applied only when
the recorded queue index is still in range and the entry there still holds
the probed url; otherwise the queue is returned unchanged (no out-of-range
access, no mutation).  When it is applied, only that entry changes (title
written, status set to parse_failed exactly on probe error) and every other
position and the length are untouched. -/
theorem C10_stale_probe_guard (idx : Nat) (url title : String) (failed : Bool)
    (q : List Item) :
    (q.length ≤ idx → applyProbeResult idx url title failed q = q)
    ∧ (∀ it, q[idx]? = some it → it.url ≠ url →
        applyProbeResult idx url title failed q = q)
    ∧ (∀ it, q[idx]? = some it → it.url = url →
        (applyProbeResult idx url title failed q)[idx]?
          = some ({ it with
              title := title,
              status := if failed then .parse_failed else it.status })
        ∧ (∀ j, j ≠ idx → (applyProbeResult idx url title failed q)[j]? = q[j]?)
        ∧ (applyProbeResult idx url title failed q).length = q.length) := by
  refine ⟨?_, ?_, ?_⟩
  · intro h
    have hn : q[idx]? = none := List.getElem?_eq_none h
    simp [applyProbeResult, hn]
  · intro it hit hne
    simp [applyProbeResult, hit, hne]
  · intro it hit heq
    have hlt : idx < q.length := (List.getElem?_eq_some.mp hit).1
    have hstep : applyProbeResult idx url title failed q
        = q.set idx ({ it with
            title := title,
            status := if failed then .parse_failed else it.status }) := by
      simp [applyProbeResult, hit, heq]
    refine ⟨?_, ?_, ?_⟩
    · rw [hstep]
      simp [List.getElem?_set_self', hlt]
    · intro j hj
      rw [hstep, List.getElem?_set_ne (by omega)]
    · rw [hstep]
      simp

def w10item : Item :=
  { url := "http://example.com/z", title := "[解析中]",
    status := .pending, unique_id := 10, format_string := none }

/-- Claim C10 witness: the probe-guard theorem applied to a one-item queue,
once with an out-of-range recorded index (dropped) and once with a valid
matching index (applied). -/
theorem C10_witness :
    applyProbeResult 5 "http://example.com/z" "T" true [w10item] = [w10item]
    ∧ (applyProbeResult 0 "http://example.com/z" "T" true [w10item]).length = 1 :=
  ⟨(C10_stale_probe_guard 5 "http://example.com/z" "T" true [w10item]).1
      (by decide),
    by
      have h := (C10_stale_probe_guard 0 "http://example.com/z" "T" true
        [w10item]).2.2 w10item rfl rfl
      simpa using h.2.2⟩

end Bot
